import Mathlib

/-!
Verification of the moviefi client application.

This file gives a shallow embedding of the client-side logic of the
repository and proves properties about it:

- `middleware` embeds src/middleware.ts: the route guard that inspects the
  session cookie and the request path and either redirects or passes the
  request through.
- `checkMediaQueries` and `handleViewportEvent` embed
  src/hooks/useResponsive.tsx: the viewport classifier evaluated on mount
  and on resize events.
- `fetchMovies`, `goToPage`, `loadMoreMovies`, `observerCallback` and
  `logout` embed the handlers of the Home component in src/app/page.tsx.
  Network calls are modelled by passing the answer of the server as an
  `Except` argument, and the observable actions of a handler (requests
  issued, console logs, toasts, navigations) are collected in a list of
  `Effect` values returned next to the new component state.
-/

namespace Moviefi

/-- Result of the Next.js middleware: either a redirect to a URL path
(`NextResponse.redirect`) or passing the request through
(`NextResponse.next`). -/
inductive MiddlewareResult where
  | redirect (url : String)
  | next
deriving DecidableEq, Repr

/-- The list `protectedRoutes` from src/middleware.ts, verbatim: note that
the second element is the literal string "/edit/:id", not a pattern. -/
def protectedRoutes : List String := ["/add", "/edit/:id", "/"]

/-- The list `authRoutes` from src/middleware.ts. -/
def authRoutes : List String := ["/login", "/signup"]

/-- JavaScript truthiness of `req.cookies.get("token")?.value`: the value
is `undefined` when the cookie is absent, and both `undefined` and the
empty string are falsy in JavaScript. -/
def tokenTruthy : Option String → Bool
  | none => false
  | some s => s != ""

/-- Embedding of the `middleware` function of src/middleware.ts. The first
argument is the value of the `token` cookie (`none` when the request
carries no such cookie), the second is `req.nextUrl.pathname`. -/
def middleware (cookieToken : Option String) (path : String) : MiddlewareResult :=
  if tokenTruthy cookieToken && authRoutes.contains path then
    MiddlewareResult.redirect "/"
  else if !tokenTruthy cookieToken && protectedRoutes.contains path then
    MiddlewareResult.redirect "/login"
  else
    MiddlewareResult.next

/-- The three booleans exposed by the `useResponsive` hook of
src/hooks/useResponsive.tsx. -/
structure ResponsiveState where
  isSmallDevice : Bool
  isMediumDevice : Bool
  isLargeDevice : Bool
deriving DecidableEq, Repr

/-- Embedding of `checkMediaQueries` from src/hooks/useResponsive.tsx.
The media queries are, verbatim: `(max-width: 768px)`,
`(min-width: 769px) and (max-width: 1024px)`, `(min-width: 1025px)`,
evaluated at a viewport width of `w` pixels. -/
def checkMediaQueries (w : Nat) : ResponsiveState :=
  { isSmallDevice := decide (w ≤ 768)
    isMediumDevice := decide (769 ≤ w ∧ w ≤ 1024)
    isLargeDevice := decide (1025 ≤ w) }

/-- The two occasions on which the hook evaluates the media queries: the
initial check inside the mount effect, and each resize event. -/
inductive ViewportEvent where
  | mount (w : Nat)
  | resize (w : Nat)

/-- The state transition of the `useResponsive` hook: both the initial
check and the resize handler call `checkMediaQueries`, discarding the
previous state. -/
def handleViewportEvent : ViewportEvent → ResponsiveState → ResponsiveState
  | ViewportEvent.mount w, _ => checkMediaQueries w
  | ViewportEvent.resize w, _ => checkMediaQueries w

/-- The `Movie` interface of src/app/page.tsx. The source field `_id` is
rendered as `mid`. -/
structure Movie where
  mid : String
  title : String
  publishingYear : Int
  poster : String
deriving DecidableEq, Repr

/-- The `Pagination` interface of src/app/page.tsx. -/
structure Pagination where
  currentPage : Int
  totalPages : Int
  totalMovies : Int
deriving DecidableEq, Repr

/-- The pieces of `useState` state of the Home component of
src/app/page.tsx that the fetch handlers touch. -/
structure HomeState where
  movies : Option (List Movie)
  loading : Bool
  pagination : Pagination
  hasMore : Bool
deriving DecidableEq, Repr

/-- The initial state of the Home component: `movies` starts as `null`,
`loading` as `false`, `pagination` as `{1, 1, 0}` and `hasMore` as
`true`. -/
def initialHomeState : HomeState :=
  { movies := none
    loading := false
    pagination := { currentPage := 1, totalPages := 1, totalMovies := 0 }
    hasMore := true }

/-- The body of a successful `GET /api/movies` response:
`response.data.movies` and `response.data.pagination`. -/
structure FetchResponse where
  movies : List Movie
  pagination : Pagination
deriving DecidableEq, Repr

/-- The constant `limit` of the Home component. -/
def limit : Int := 8

/-- An observable action of a Home component handler: a network request,
a console log, a toast notification, or a router navigation. -/
inductive Effect where
  | apiGetMovies (page lim : Int)
  | apiGetLogout
  | consoleError (msg : String)
  | toastSuccess (msg : String)
  | toastError (msg : String)
  | push (path : String)
deriving DecidableEq, Repr

/-- Embedding of `fetchMovies` from src/app/page.tsx. The answer of the
server is passed as `resp`. On success the movie list is replaced, or
appended to when `append` is true (a `null` previous list counts as
empty, from `prevMovies || []`), the pagination is taken from the
response, and `hasMore` is set to `page < totalPages`. On failure the
error is logged and no state other than `loading` changes. `loading` is
set to `true` before the request and back to `false` in the `finally`
block, so it is `false` in the state returned here. -/
def fetchMovies (page : Int) (append : Bool) (resp : Except Unit FetchResponse)
    (s : HomeState) : HomeState × List Effect :=
  match resp with
  | Except.ok r =>
      ({ movies := some (if append then s.movies.getD [] ++ r.movies else r.movies)
         loading := false
         pagination := { currentPage := r.pagination.currentPage
                         totalPages := r.pagination.totalPages
                         totalMovies := r.pagination.totalMovies }
         hasMore := decide (page < r.pagination.totalPages) }
       , [Effect.apiGetMovies page limit])
  | Except.error _ =>
      ({ s with loading := false }
       , [Effect.apiGetMovies page limit
          , Effect.consoleError "Failed to fetch movies:"])

/-- Embedding of `goToPage` from src/app/page.tsx: calls `fetchMovies` in
replace mode when `1 ≤ page ≤ totalPages`, and does nothing otherwise. -/
def goToPage (page : Int) (resp : Except Unit FetchResponse) (s : HomeState) :
    HomeState × List Effect :=
  if 1 ≤ page ∧ page ≤ s.pagination.totalPages then
    fetchMovies page false resp s
  else
    (s, [])

/-- Embedding of `loadMoreMovies` from src/app/page.tsx: when `hasMore`
holds and no fetch is in flight, fetches page `currentPage + 1` in append
mode. -/
def loadMoreMovies (resp : Except Unit FetchResponse) (s : HomeState) :
    HomeState × List Effect :=
  if s.hasMore && !s.loading then
    fetchMovies (s.pagination.currentPage + 1) true resp s
  else
    (s, [])

/-- Embedding of the IntersectionObserver callback installed by the Home
component: calls `loadMoreMovies` when the sentinel is intersecting, the
viewport is small, `hasMore` holds and no fetch is in flight. -/
def observerCallback (isIntersecting isSmallDevice : Bool)
    (resp : Except Unit FetchResponse) (s : HomeState) : HomeState × List Effect :=
  if isIntersecting && isSmallDevice && s.hasMore && !s.loading then
    loadMoreMovies resp s
  else
    (s, [])

/-- Embedding of `logout` from src/app/page.tsx. On success: success
toast, then navigation to /login. On failure: the error message is logged
(carried by the `Except.error`) and an error toast is shown; there is no
navigation in the catch branch. -/
def logout (resp : Except String Unit) : List Effect :=
  match resp with
  | Except.ok _ =>
      [Effect.apiGetLogout
       , Effect.toastSuccess "Logout successful"
       , Effect.push "/login"]
  | Except.error msg =>
      [Effect.apiGetLogout
       , Effect.consoleError msg
       , Effect.toastError "Logout failed. Please try again."]

/-- Whether an effect is a toast notification. -/
def isToast : Effect → Bool
  | Effect.toastSuccess _ => true
  | Effect.toastError _ => true
  | _ => false

/-- Whether an effect is a router navigation. -/
def isPush : Effect → Bool
  | Effect.push _ => true
  | _ => false

/-- A sample movie for concrete evaluations. -/
def sampleMovie : Movie :=
  { mid := "m1", title := "Alpha", publishingYear := 2001, poster := "p1" }

/-- A sample component state with three total pages. -/
def sampleState : HomeState :=
  { movies := some [sampleMovie]
    loading := false
    pagination := { currentPage := 1, totalPages := 3, totalMovies := 20 }
    hasMore := true }

/-- A sample successful server response for page 2. -/
def sampleResponse : FetchResponse :=
  { movies := [{ mid := "m9", title := "Beta", publishingYear := 1999, poster := "p9" }]
    pagination := { currentPage := 2, totalPages := 3, totalMovies := 20 } }

/-- Claim C1 (code bug evidence). The claim says every request without a
token cookie to a protected page, including `/edit/:id` for any concrete
id, is redirected to /login. The code checks
`protectedRoutes.includes(currentPath)` against the literal string
"/edit/:id", so a request to the concrete edit page /edit/123 with no
token cookie is passed through instead of redirected, contradicting the
doc comment of the middleware itself. -/
theorem middleware_noToken_concreteEdit_next :
    Moviefi.middleware none "/edit/123" = Moviefi.MiddlewareResult.next := by
  decide

/-- Claim C2 (counterexample). A request that carries a token cookie with
the empty string as value to the auth page /login is passed through, not
redirected to /, because the empty string is falsy in JavaScript. -/
theorem middleware_emptyToken_login_next :
    Moviefi.middleware (some "") "/login" = Moviefi.MiddlewareResult.next := by
  decide

/-- Claim C2 (amended). For every request whose token cookie is truthy
(present with a nonempty value) and whose path is an auth page, the
middleware redirects to /; every request matched by neither rule (truthy
token on a non-auth page, or falsy token on a non-protected page) is
passed through. -/
theorem middleware_twoRuleTable (tok : Option String) (path : String) :
    ((Moviefi.tokenTruthy tok && Moviefi.authRoutes.contains path) = true →
      Moviefi.middleware tok path = Moviefi.MiddlewareResult.redirect "/") ∧
    ((Moviefi.tokenTruthy tok && Moviefi.authRoutes.contains path) = false →
     ((!Moviefi.tokenTruthy tok) && Moviefi.protectedRoutes.contains path) = false →
      Moviefi.middleware tok path = Moviefi.MiddlewareResult.next) := by
  constructor
  · intro h
    unfold Moviefi.middleware
    rw [if_pos h]
  · intro h1 h2
    unfold Moviefi.middleware
    have hn1 :
        ¬ ((Moviefi.tokenTruthy tok && Moviefi.authRoutes.contains path) = true) := by
      rw [h1]
      decide
    have hn2 :
        ¬ (((!Moviefi.tokenTruthy tok) && Moviefi.protectedRoutes.contains path) = true) := by
      rw [h2]
      decide
    rw [if_neg hn1, if_neg hn2]

/-- Witness for `middleware_twoRuleTable` at concrete inputs. -/
theorem middleware_twoRuleTable_witness :
    Moviefi.middleware (some "abc") "/login" = Moviefi.MiddlewareResult.redirect "/" ∧
    Moviefi.middleware none "/about" = Moviefi.MiddlewareResult.next :=
  ⟨(middleware_twoRuleTable (some "abc") "/login").1 (by decide),
   (middleware_twoRuleTable none "/about").2 (by decide) (by decide)⟩

/-- Claim C3 (counterexample). Two requests to /login, both carrying a
token cookie, one with value "" and one with value "abc", get different
decisions: the middleware is sensitive to whether the value is empty, not
only to the presence of the cookie. -/
theorem middleware_tokenValue_changes_decision :
    Moviefi.middleware (some "") "/login" ≠ Moviefi.middleware (some "abc") "/login" := by
  decide

/-- Claim C3 (amended). The decision of the middleware depends only on the
path and on the truthiness of the token cookie value: any two requests to
the same path both carrying a token cookie with a nonempty value get the
same decision. -/
theorem middleware_nonempty_value_irrelevant (path v1 v2 : String)
    (h1 : v1 ≠ "") (h2 : v2 ≠ "") :
    Moviefi.middleware (some v1) path = Moviefi.middleware (some v2) path := by
  have e1 : Moviefi.tokenTruthy (some v1) = true := by
    simp [Moviefi.tokenTruthy, h1]
  have e2 : Moviefi.tokenTruthy (some v2) = true := by
    simp [Moviefi.tokenTruthy, h2]
  unfold Moviefi.middleware
  rw [e1, e2]

/-- Witness for `middleware_nonempty_value_irrelevant` at concrete
inputs. -/
theorem middleware_nonempty_value_irrelevant_witness :
    Moviefi.middleware (some "a") "/login" = Moviefi.middleware (some "b") "/login" :=
  middleware_nonempty_value_irrelevant "/login" "a" "b" (by decide) (by decide)

/-- Claim C4 (counterexample). At viewport width 1025 the classifier
reports a large device, while the claim says isLargeDevice is true iff
the width is strictly greater than 1025. -/
theorem checkMediaQueries_1025_isLarge :
    (Moviefi.checkMediaQueries 1025).isLargeDevice = true ∧ ¬(1025 > 1025) := by
  decide

/-- Claim C4 (amended). For every viewport width w, the classifier
exposes isSmallDevice iff w ≤ 768, isMediumDevice iff 769 ≤ w ≤ 1024 and
isLargeDevice iff w > 1024, and both the mount check and every resize
event recompute the three booleans from the current width, discarding any
previous state. -/
theorem responsive_breakpoints (w : Nat) (s : Moviefi.ResponsiveState) :
    Moviefi.handleViewportEvent (Moviefi.ViewportEvent.mount w) s
      = Moviefi.checkMediaQueries w ∧
    Moviefi.handleViewportEvent (Moviefi.ViewportEvent.resize w) s
      = Moviefi.checkMediaQueries w ∧
    ((Moviefi.checkMediaQueries w).isSmallDevice = true ↔ w ≤ 768) ∧
    ((Moviefi.checkMediaQueries w).isMediumDevice = true ↔ (769 ≤ w ∧ w ≤ 1024)) ∧
    ((Moviefi.checkMediaQueries w).isLargeDevice = true ↔ 1024 < w) := by
  refine ⟨rfl, rfl, ?_, ?_, ?_⟩
  · simp [Moviefi.checkMediaQueries]
  · simp [Moviefi.checkMediaQueries]
  · simp [Moviefi.checkMediaQueries]
    omega

/-- Claim C5. For every state and every page p with 1 ≤ p ≤ totalPages, a
successful fetch through goToPage replaces the movie list: the resulting
movies state is exactly the list returned by the server, whatever was
held before. -/
theorem goToPage_replaces (s : Moviefi.HomeState) (p : Int)
    (r : Moviefi.FetchResponse)
    (h1 : 1 ≤ p) (h2 : p ≤ s.pagination.totalPages) :
    (Moviefi.goToPage p (Except.ok r) s).1.movies = some r.movies := by
  unfold Moviefi.goToPage
  rw [if_pos ⟨h1, h2⟩]
  simp [Moviefi.fetchMovies]

/-- Witness for `goToPage_replaces` at concrete inputs. -/
theorem goToPage_replaces_witness :
    (Moviefi.goToPage 2 (Except.ok Moviefi.sampleResponse) Moviefi.sampleState).1.movies
      = some Moviefi.sampleResponse.movies :=
  goToPage_replaces Moviefi.sampleState 2 Moviefi.sampleResponse
    (by decide) (by decide)

/-- Claim C6. When the observer fires on a small device while hasMore is
true and loading is false, the component fetches page currentPage + 1 in
append mode, and on success the movies state is the previous list
followed by the newly fetched movies. -/
theorem observer_appends (s : Moviefi.HomeState) (prev : List Moviefi.Movie)
    (r : Moviefi.FetchResponse)
    (hm : s.hasMore = true) (hl : s.loading = false) (hmv : s.movies = some prev) :
    (Moviefi.observerCallback true true (Except.ok r) s).1.movies
      = some (prev ++ r.movies) ∧
    Moviefi.Effect.apiGetMovies (s.pagination.currentPage + 1) Moviefi.limit
      ∈ (Moviefi.observerCallback true true (Except.ok r) s).2 := by
  unfold Moviefi.observerCallback Moviefi.loadMoreMovies
  simp [hm, hl, hmv, Moviefi.fetchMovies]

/-- Witness for `observer_appends` at concrete inputs. -/
theorem observer_appends_witness :
    (Moviefi.observerCallback true true (Except.ok Moviefi.sampleResponse)
        Moviefi.sampleState).1.movies
      = some ([Moviefi.sampleMovie] ++ Moviefi.sampleResponse.movies) ∧
    Moviefi.Effect.apiGetMovies (Moviefi.sampleState.pagination.currentPage + 1)
        Moviefi.limit
      ∈ (Moviefi.observerCallback true true (Except.ok Moviefi.sampleResponse)
          Moviefi.sampleState).2 :=
  observer_appends Moviefi.sampleState [Moviefi.sampleMovie] Moviefi.sampleResponse
    (by decide) (by decide) (by decide)

/-- Claim C7 (counterexample). A failed movie fetch produces no toast
notification at all: the failure is only logged to the console, so it is
not surfaced to the user as a transient notification. -/
theorem fetch_failure_no_toast :
    ((Moviefi.fetchMovies 1 false (Except.error ()) Moviefi.initialHomeState).2.all
      (fun e => !Moviefi.isToast e)) = true := by
  decide

/-- Claim C7 (amended). Every failure of a network operation is caught
locally and logged to the console, and none is fatal (the fetch handler
still returns a state with loading cleared); a logout failure is
additionally surfaced as an error toast, while a fetch failure is only
logged. -/
theorem failures_logged (page : Int) (append : Bool) (s : Moviefi.HomeState)
    (msg : String) :
    (Moviefi.fetchMovies page append (Except.error ()) s).1.loading = false ∧
    Moviefi.Effect.consoleError "Failed to fetch movies:"
      ∈ (Moviefi.fetchMovies page append (Except.error ()) s).2 ∧
    Moviefi.Effect.consoleError msg ∈ Moviefi.logout (Except.error msg) ∧
    Moviefi.Effect.toastError "Logout failed. Please try again."
      ∈ Moviefi.logout (Except.error msg) := by
  refine ⟨rfl, ?_, ?_, ?_⟩ <;> simp [Moviefi.fetchMovies, Moviefi.logout]

/-- Claim C8 (counterexample). When the logout request fails, no
navigation effect is produced: the redirect to the login page happens
only on success, not whether or not the request succeeds. -/
theorem logout_failure_no_redirect :
    ((Moviefi.logout (Except.error "network down")).all
      (fun e => !Moviefi.isPush e)) = true := by
  decide

/-- Claim C8 (amended). The logout operation issues a GET request to
/api/logout in both outcomes; on success it shows a success toast and
redirects to /login, while on failure it shows an error toast and does
not redirect. -/
theorem logout_behaviour (msg : String) :
    Moviefi.Effect.apiGetLogout ∈ Moviefi.logout (Except.ok ()) ∧
    Moviefi.Effect.push "/login" ∈ Moviefi.logout (Except.ok ()) ∧
    Moviefi.Effect.toastSuccess "Logout successful" ∈ Moviefi.logout (Except.ok ()) ∧
    Moviefi.Effect.apiGetLogout ∈ Moviefi.logout (Except.error msg) ∧
    ((Moviefi.logout (Except.error msg)).all (fun e => !Moviefi.isPush e)) = true := by
  refine ⟨?_, ?_, ?_, ?_, ?_⟩ <;> simp [Moviefi.logout, Moviefi.isPush]

/-- Claim C9. A failed fetchMovies leaves the movie list, the pagination
state and the hasMore flag unchanged, and after fetchMovies completes,
whether by success or failure, the loading flag is false. -/
theorem fetchMovies_error_frame (page : Int) (append : Bool)
    (s : Moviefi.HomeState) (resp : Except Unit Moviefi.FetchResponse) :
    (Moviefi.fetchMovies page append (Except.error ()) s).1.movies = s.movies ∧
    (Moviefi.fetchMovies page append (Except.error ()) s).1.pagination = s.pagination ∧
    (Moviefi.fetchMovies page append (Except.error ()) s).1.hasMore = s.hasMore ∧
    (Moviefi.fetchMovies page append resp s).1.loading = false := by
  refine ⟨rfl, rfl, rfl, ?_⟩
  cases resp <;> rfl

/-- Claim C10. For every page number p with p < 1 or p > totalPages,
goToPage issues no network request and leaves the component state
unchanged: it returns the same state and an empty effect list. -/
theorem goToPage_rejects_out_of_range (p : Int)
    (resp : Except Unit Moviefi.FetchResponse) (s : Moviefi.HomeState)
    (h : p < 1 ∨ s.pagination.totalPages < p) :
    Moviefi.goToPage p resp s = (s, []) := by
  unfold Moviefi.goToPage
  rw [if_neg]
  intro hc
  rcases hc with ⟨hc1, hc2⟩
  rcases h with h | h <;> omega

/-- Witness for `goToPage_rejects_out_of_range` at a concrete input. -/
theorem goToPage_rejects_out_of_range_witness :
    Moviefi.goToPage 0 (Except.error ()) Moviefi.sampleState
      = (Moviefi.sampleState, []) :=
  goToPage_rejects_out_of_range 0 (Except.error ()) Moviefi.sampleState
    (Or.inl (by decide))

end Moviefi
